import Mathlib

/-!
Verification of the AI SQL agent pipeline (aiAgent.js, inputRefinement.js,
querySelector.js, tableSelector.js, queryGenerator.js, ollama.js).

The external model call (callOllama) is modelled as an oracle
`String → Except String String` (prompt to either a thrown error message or a
response text), and JSON.parse as a function `String → Except String JSVal`
(either a thrown SyntaxError message or the parsed JavaScript value).
JavaScript values flowing out of JSON.parse are modelled by the inductive
type `JSVal`; property access, truthiness, string coercion and the
Array.prototype methods used by the code are given explicit semantics, with
a thrown TypeError modelled as `Except.error`.  Each component method is a
Lean function whose result type `Except String R` separates a value returned
to the caller (`.ok`) from an exception propagated to the caller (`.error`).
-/

/-- A JavaScript value, as produced by JSON.parse (plus `undefined`). -/
inductive JSVal where
  | undefined
  | jsNull
  | bool (b : Bool)
  | num (n : Int)
  | str (s : String)
  | arr (elems : List JSVal)
  | obj (fields : List (String × JSVal))

/-- JavaScript truthiness of a value. -/
def truthyVal : JSVal → Bool
  | .undefined => false
  | .jsNull => false
  | .bool b => b
  | .num n => decide (n ≠ 0)
  | .str s => decide (s ≠ "")
  | .arr _ => true
  | .obj _ => true

mutual

/-- JavaScript ToString coercion, as used by template-literal interpolation. -/
def jsValToString : JSVal → String
  | .undefined => "undefined"
  | .jsNull => "null"
  | .bool b => if b then "true" else "false"
  | .num n => toString n
  | .str s => s
  | .arr xs => jsArrToString xs
  | .obj _ => "[object Object]"

/-- Array ToString: elements joined with a comma, null/undefined as empty. -/
def jsArrToString : List JSVal → String
  | [] => ""
  | x :: xs =>
      (match x with
        | .undefined => ""
        | .jsNull => ""
        | v => jsValToString v)
      ++ (if xs.isEmpty then "" else ",") ++ jsArrToString xs

end

/-- Array.prototype.join with a separator; null/undefined render empty. -/
def jsListJoin (sep : String) : List JSVal → String
  | [] => ""
  | x :: xs =>
      (match x with
        | .undefined => ""
        | .jsNull => ""
        | v => jsValToString v)
      ++ (if xs.isEmpty then "" else sep) ++ jsListJoin sep xs

/-- JavaScript property read `v[key]`: TypeError on null/undefined, the
field (or `undefined`) on objects, `undefined` on other primitives. -/
def jsIndex (v : JSVal) (key : String) : Except String JSVal :=
  match v with
  | .undefined =>
      .error ("TypeError: Cannot read properties of undefined (reading \x27"
        ++ key ++ "\x27)")
  | .jsNull =>
      .error ("TypeError: Cannot read properties of null (reading \x27"
        ++ key ++ "\x27)")
  | .obj fields => .ok ((fields.lookup key).getD .undefined)
  | _ => .ok .undefined

/-- A `.join(sep)` method call: only arrays have `join`. -/
def jsJoinCall (v : JSVal) (sep : String) : Except String String :=
  match v with
  | .arr xs => .ok (jsListJoin sep xs)
  | .undefined =>
      .error "TypeError: Cannot read properties of undefined (reading \x27join\x27)"
  | .jsNull =>
      .error "TypeError: Cannot read properties of null (reading \x27join\x27)"
  | _ => .error "TypeError: columns.join is not a function"

/-- Template interpolation of a possibly absent string field
(an absent field reads as `undefined`, which prints as "undefined"). -/
def jsTemplateOpt : Option String → String
  | none => "undefined"
  | some s => s

/-- Models `x || dflt` for a string-or-absent value: the empty string is falsy. -/
def jsOrDefault (x : Option String) (dflt : String) : String :=
  match x with
  | some s => if s = "" then dflt else s
  | none => dflt

/-- Characters removed by String.prototype.trim (ASCII whitespace). -/
def trimList (cs : List Char) : List Char :=
  ((cs.dropWhile Char.isWhitespace).reverse.dropWhile Char.isWhitespace).reverse

/-- String.prototype.trim. -/
def jsTrim (s : String) : String :=
  String.mk (trimList s.toList)

/-- Does `hay` contain `pat` as a contiguous sublist? (String.includes / regex
literal search). -/
def containsSub (hay pat : List Char) : Bool :=
  match hay with
  | [] => pat.isEmpty
  | _ :: t => pat.isPrefixOf hay || containsSub t pat

/-- The model call: a prompt either yields a response text or throws. -/
abbrev Oracle := String → Except String String

/-- JSON.parse: a text either yields a JavaScript value or throws. -/
abbrev Parse := String → Except String JSVal

/-- An always-ok check on an exception-carrying result. -/
def exceptOk {ε α : Type} : Except ε α → Bool
  | .ok _ => true
  | .error _ => false

/-- An example-query catalog entry: a query and its description. -/
structure ExampleQuery where
  query : String
  description : String
deriving DecidableEq

/-- A column of the table-metadata catalog: name, type and description. -/
structure ColumnMeta where
  name : String
  type : String
  description : Option String := none
deriving DecidableEq

/-- A table-metadata catalog entry: a description and the columns. -/
structure TableMeta where
  description : Option String := none
  columns : List ColumnMeta
deriving DecidableEq

/-- The catalogs held by the agent (QuerySelector.exampleQueries and
TableSelector.tableMetadata; the metadata object is an assoc list). -/
structure AgentState where
  exampleQueries : List ExampleQuery
  tableMetadata : List (String × TableMeta)
deriving DecidableEq

/-- The result object of InputRefinement.refineUserInput. -/
structure RefinementResult where
  original : String
  refined : String
  success : Bool
  error : Option String := none
deriving DecidableEq

/-- The result object of QuerySelector.selectBestQuery.  The empty-catalog
short-circuit omits the `success`, `selectedQueryIndex` and `error`
properties, so those are `Option`-typed with `none` meaning absent. -/
structure QuerySelectionResult where
  selectedQuery : JSVal
  selectedQueryIndex : Option JSVal := none
  confidence : JSVal
  reasoning : JSVal
  success : Option Bool := none
  error : Option String := none

/-- The result object of TableSelector.selectTablesAndColumns.  The
empty-catalog short-circuit omits `confidence`, `success` and `error`. -/
structure TableSelectionResult where
  selectedTables : JSVal
  selectedColumns : JSVal
  reasoning : JSVal
  confidence : Option JSVal := none
  success : Option Bool := none
  error : Option String := none

/-- The metadata echoed back by QueryGenerator.generateRedshiftQuery. -/
structure GenMetadata where
  userPrompt : String
  selectedQuery : JSVal
  selectedTables : JSVal
  selectedColumns : JSVal

/-- The result object of QueryGenerator.generateRedshiftQuery
(`query` is null on failure). -/
structure QueryGenerationResult where
  query : Option String
  success : Bool
  error : Option String := none
  metadata : GenMetadata

/-- The `basicChecks` object of QueryGenerator.validateQuery. -/
structure ValidationChecks where
  hasSelect : Bool
  hasFrom : Bool
  properSyntax : Bool
  notEmpty : Bool
deriving DecidableEq

/-- The result object of QueryGenerator.validateQuery. -/
structure ValidationResult where
  isValid : Bool
  checks : ValidationChecks
  suggestions : List String
deriving DecidableEq

/-- The aggregate result object of AIAgent.processQuery; the five keys of its
`steps` object are inlined as optional fields (absent until assigned). -/
structure PipelineResult where
  userInput : String
  refinement : Option RefinementResult := none
  querySelection : Option QuerySelectionResult := none
  tableSelection : Option TableSelectionResult := none
  queryGeneration : Option QueryGenerationResult := none
  validation : Option ValidationResult := none
  finalQuery : Option String := none
  success : Bool := false
  error : Option String := none
  processingTime : Int := 0

/-- Truthiness of a possibly absent boolean property
(`result.steps.tableSelection.success`). -/
def truthyOpt : Option Bool → Bool
  | some b => b
  | none => false

/-- Models the SELECT regex test (case-insensitive substring check). -/
def hasSelectCheck (query : String) : Bool :=
  containsSub (query.toList.map Char.toLower) ("select".toList)

/-- Models the FROM regex test (case-insensitive substring check). -/
def hasFromCheck (query : String) : Bool :=
  containsSub (query.toList.map Char.toLower) ("from".toList)

/-- Models the check the code stores under the key named properSyntax:
the trimmed query ends with a semicolon, or no semicolon occurs at all. -/
def properSemicolon (query : String) : Bool :=
  ((jsTrim query).toList.getLast? == some ';') || !(query.toList.contains ';')

/-- Models the notEmpty check: the trimmed query is non-empty. -/
def notEmptyCheck (query : String) : Bool :=
  decide (0 < (jsTrim query).toList.length)

/-- QueryGenerator.generateSuggestions: one pushed message per failing check
among hasSelect, hasFrom and notEmpty. -/
def generateSuggestions (checks : ValidationChecks) : List String :=
  (if checks.hasSelect then [] else ["Query should include a SELECT statement"])
  ++ (if checks.hasFrom then [] else ["Query should include a FROM clause"])
  ++ (if checks.notEmpty then [] else ["Query cannot be empty"])

/-- QueryGenerator.validateQuery: the four basic checks, their conjunction,
and the suggestions. -/
def validateQuery (query : String) : ValidationResult :=
  let hs := hasSelectCheck query
  let hf := hasFromCheck query
  let ps := properSemicolon query
  let ne := notEmptyCheck query
  let checks : ValidationChecks :=
    { hasSelect := hs, hasFrom := hf, properSyntax := ps, notEmpty := ne }
  { isValid := hs && hf && ps && ne
    checks := checks
    suggestions := generateSuggestions checks }

/-- The instructional prompt of InputRefinement.refineUserInput. -/
def refinePrompt (userInput : String) : String :=
  "\nYou are an AI assistant that refines user queries for SQL generation. \nYour task is to take a user\x27s natural language query and refine it to be more specific, clear, and suitable for SQL query generation.\n\nUser Input: \"" ++ userInput ++ "\"\n\nPlease refine this input by:\n1. Clarifying any ambiguous terms\n2. Adding specific details that would be helpful for SQL generation\n3. Identifying the main intent (SELECT, UPDATE, DELETE, etc.)\n4. Suggesting specific data types or ranges where appropriate\n\nReturn only the refined query in a clear, concise format.\n"

/-- InputRefinement.refineUserInput: call the model in a try block; on a
thrown error fall back to the original input with success false. -/
def refineUserInput (o : Oracle) (userInput : String) :
    Except String RefinementResult :=
  match o (refinePrompt userInput) with
  | .ok response =>
      .ok { original := userInput, refined := response, success := true }
  | .error e =>
      .ok { original := userInput, refined := userInput, success := false
            error := some e }

/-- The enumeration of catalog examples inside the selection prompt. -/
def exampleQueriesText (exampleQueries : List ExampleQuery) : String :=
  String.intercalate "\n"
    (exampleQueries.enum.map (fun p =>
      "\nExample " ++ toString (p.1 + 1) ++ ":\nDescription: "
        ++ p.2.description ++ "\nSQL Query: " ++ p.2.query ++ "\n"))

/-- The prompt of QuerySelector.selectBestQuery. -/
def querySelectionPrompt (exampleQueries : List ExampleQuery)
    (userPrompt : String) : String :=
  "\nYou are an expert SQL analyst. Given a user\x27s request and a set of example SQL queries, select the most appropriate example query that best matches the user\x27s intent.\n\nUser Request: \"" ++ userPrompt ++ "\"\n\nAvailable Example Queries:\n" ++ exampleQueriesText exampleQueries ++ "\n\nPlease analyze the user request and:\n1. Select the example query that best matches the user\x27s intent\n2. Provide a confidence score (0-100)\n3. Explain your reasoning\n\nRespond in JSON format:\n\x7b\n  \"selectedQueryIndex\": <index_of_selected_query>,\n  \"selectedQuery\": \"<the_selected_sql_query>\",\n  \"confidence\": <confidence_score>,\n  \"reasoning\": \"<explanation_of_why_this_query_was_selected>\"\n\x7d\n"

/-- QuerySelector.selectBestQuery: empty-catalog short-circuit, then model
call + JSON.parse + four property reads inside a try block. -/
def selectBestQuery (exampleQueries : List ExampleQuery) (o : Oracle)
    (p : Parse) (userPrompt : String) : Except String QuerySelectionResult :=
  if exampleQueries.length = 0 then
    .ok { selectedQuery := .jsNull, confidence := .num 0
          reasoning := .str "No example queries available" }
  else
    match (do
      let response ← o (querySelectionPrompt exampleQueries userPrompt)
      let result ← p response
      let sq ← jsIndex result "selectedQuery"
      let idx ← jsIndex result "selectedQueryIndex"
      let conf ← jsIndex result "confidence"
      let reas ← jsIndex result "reasoning"
      pure (sq, idx, conf, reas) : Except String (JSVal × JSVal × JSVal × JSVal)) with
    | .ok (sq, idx, conf, reas) =>
        .ok { selectedQuery := sq, selectedQueryIndex := some idx
              confidence := conf, reasoning := reas, success := some true }
    | .error e =>
        .ok { selectedQuery := .jsNull, confidence := .num 0
              reasoning := .str ("Error selecting query: " ++ e)
              success := some false, error := some e }

/-- One line of the metadata listing inside the table-selection prompt. -/
def columnLine (col : ColumnMeta) : String :=
  "  - " ++ col.name ++ " (" ++ col.type ++ "): "
    ++ jsOrDefault col.description "No description"

/-- The listing of the table-metadata catalog inside the prompt. -/
def metadataText (tableMetadata : List (String × TableMeta)) : String :=
  String.intercalate "\n"
    (tableMetadata.map (fun kv =>
      "\nTable: " ++ kv.1 ++ "\nDescription: "
        ++ jsOrDefault kv.2.description "No description available"
        ++ "\nColumns:\n"
        ++ String.intercalate "\n" (kv.2.columns.map columnLine) ++ "\n"))

/-- The prompt of TableSelector.selectTablesAndColumns. -/
def tableSelectionPrompt (tableMetadata : List (String × TableMeta))
    (userPrompt : String) : String :=
  "\nYou are a database expert. Given a user\x27s request and database table metadata, identify the most relevant tables and columns needed to fulfill the request.\n\nUser Request: \"" ++ userPrompt ++ "\"\n\nAvailable Tables and Columns:\n" ++ metadataText tableMetadata ++ "\n\nPlease analyze the user request and:\n1. Identify which tables are needed\n2. Identify which specific columns from each table are required\n3. Explain your reasoning\n\nRespond in JSON format:\n\x7b\n  \"selectedTables\": [\"table1\", \"table2\"],\n  \"selectedColumns\": \x7b\n    \"table1\": [\"column1\", \"column2\"],\n    \"table2\": [\"column3\", \"column4\"]\n  \x7d,\n  \"reasoning\": \"<explanation_of_selections>\",\n  \"confidence\": <confidence_score_0_to_100>\n\x7d\n"

/-- TableSelector.selectTablesAndColumns: empty-catalog short-circuit
(`Object.keys(...).length === 0`), then model call + JSON.parse + four
property reads inside a try block. -/
def selectTablesAndColumns (tableMetadata : List (String × TableMeta))
    (o : Oracle) (p : Parse) (userPrompt : String) :
    Except String TableSelectionResult :=
  if (tableMetadata.map Prod.fst).length = 0 then
    .ok { selectedTables := .arr [], selectedColumns := .obj []
          reasoning := .str "No table metadata available" }
  else
    match (do
      let response ← o (tableSelectionPrompt tableMetadata userPrompt)
      let result ← p response
      let ts ← jsIndex result "selectedTables"
      let sc ← jsIndex result "selectedColumns"
      let reas ← jsIndex result "reasoning"
      let conf ← jsIndex result "confidence"
      pure (ts, sc, reas, conf) : Except String (JSVal × JSVal × JSVal × JSVal)) with
    | .ok (ts, sc, reas, conf) =>
        .ok { selectedTables := ts, selectedColumns := sc
              reasoning := reas, confidence := some conf
              success := some true }
    | .error e =>
        .ok { selectedTables := .arr [], selectedColumns := .obj []
              reasoning := .str ("Error selecting tables and columns: " ++ e)
              confidence := some (.num 0), success := some false
              error := some e }

/-- One entry of tablesInfo: read selectedColumns at the table key with an
empty-array fallback, then join the columns; this happens before the try
block, so a TypeError here propagates to the caller. -/
def tablesInfoLines : List JSVal → JSVal → Except String (List String)
  | [], _ => .ok []
  | t :: ts, selectedColumns => do
      let cv ← jsIndex selectedColumns (jsValToString t)
      let columns := if truthyVal cv then cv else .arr []
      let cj ← jsJoinCall columns ", "
      let rest ← tablesInfoLines ts selectedColumns
      pure (("Table: " ++ jsValToString t ++ "\nColumns: " ++ cj) :: rest)

/-- Models the selectedTables.map over tables joined by blank lines in
generateRedshiftQuery: a map call on a non-array throws. -/
def buildTablesInfo (selectedTables selectedColumns : JSVal) :
    Except String String :=
  match selectedTables with
  | .arr ts => do
      let lines ← tablesInfoLines ts selectedColumns
      pure (String.intercalate "\n\n" lines)
  | .undefined =>
      .error "TypeError: Cannot read properties of undefined (reading \x27map\x27)"
  | .jsNull =>
      .error "TypeError: Cannot read properties of null (reading \x27map\x27)"
  | _ => .error "TypeError: selectedTables.map is not a function"

/-- The prompt of QueryGenerator.generateRedshiftQuery. -/
def genPrompt (userPrompt : String) (selectedQuery : JSVal)
    (tablesInfo : String) : String :=
  "\nYou are an expert Redshift SQL developer. Generate a complete, optimized Redshift SQL query based on the provided information.\n\nUser Request: \"" ++ userPrompt ++ "\"\n\nReference Query Pattern: " ++ (if truthyVal selectedQuery then jsValToString selectedQuery else "No reference query provided") ++ "\n\nAvailable Tables and Columns:\n" ++ tablesInfo ++ "\n\nRequirements:\n1. Generate a complete, syntactically correct Redshift SQL query\n2. Use appropriate Redshift-specific functions and optimizations where applicable\n3. Include proper JOINs if multiple tables are needed\n4. Add appropriate WHERE clauses based on the user request\n5. Use proper column aliases for readability\n6. Ensure the query follows Redshift best practices\n\nRespond with ONLY the SQL query, no additional text or formatting.\n"

/-- QueryGenerator.generateRedshiftQuery: prompt construction outside the
try block (its TypeErrors propagate), then the model call inside it. -/
def generateRedshiftQuery (o : Oracle) (userPrompt : String)
    (selectedQuery selectedTables selectedColumns : JSVal) :
    Except String QueryGenerationResult :=
  match buildTablesInfo selectedTables selectedColumns with
  | .error e => .error e
  | .ok tablesInfo =>
      let md : GenMetadata :=
        { userPrompt := userPrompt, selectedQuery := selectedQuery
          selectedTables := selectedTables, selectedColumns := selectedColumns }
      match o (genPrompt userPrompt selectedQuery tablesInfo) with
      | .ok response =>
          .ok { query := some (jsTrim response), success := true
                metadata := md }
      | .error e =>
          .ok { query := none, success := false, error := some e
                metadata := md }

/-- The catch branch of AIAgent.processQuery: record failure, the error
message and the elapsed time on whatever partial result exists. -/
def jsCatch (r : PipelineResult) (msg : String) (dt : Int) : PipelineResult :=
  { r with success := false, error := some msg, processingTime := dt }

/-- AIAgent.processQuery.  `t0` is Date.now() at entry, `t1` at exit; every
`match ... | .error` arm is the orchestrator catching an exception thrown by
a step, and the explicit `if` aborts mirror the `throw new Error(...)`
statements on a failed required step. -/
def processQuery (s : AgentState) (o : Oracle) (p : Parse)
    (userInput : String) (t0 t1 : Int) : PipelineResult :=
  let dt := t1 - t0
  let r0 : PipelineResult := { userInput := userInput }
  match refineUserInput o userInput with
  | .error e => jsCatch r0 e dt
  | .ok ref =>
    let r1 := { r0 with refinement := some ref }
    if ref.success = false then
      jsCatch r1 ("Input refinement failed: " ++ jsTemplateOpt ref.error) dt
    else
      match selectBestQuery s.exampleQueries o p ref.refined with
      | .error e => jsCatch r1 e dt
      | .ok qsel =>
        let r2 := { r1 with querySelection := some qsel }
        match selectTablesAndColumns s.tableMetadata o p ref.refined with
        | .error e => jsCatch r2 e dt
        | .ok tsel =>
          let r3 := { r2 with tableSelection := some tsel }
          if truthyOpt tsel.success = false then
            jsCatch r3 ("Table selection failed: " ++ jsTemplateOpt tsel.error) dt
          else
            match generateRedshiftQuery o ref.refined qsel.selectedQuery
                tsel.selectedTables tsel.selectedColumns with
            | .error e => jsCatch r3 e dt
            | .ok gen =>
              let r4 := { r3 with queryGeneration := some gen }
              if gen.success = false then
                jsCatch r4 ("Query generation failed: " ++ jsTemplateOpt gen.error) dt
              else
                let v := validateQuery (match gen.query with
                  | some q => q
                  | none => "")
                { r4 with validation := some v, finalQuery := gen.query
                          success := true, processingTime := dt }

/-- AIAgent.addExampleQuery: push onto the example-query catalog. -/
def addExampleQuery (s : AgentState) (query description : String) :
    AgentState :=
  { s with exampleQueries :=
      s.exampleQueries ++ [{ query := query, description := description }] }

/-- Models keyed object assignment on the metadata catalog: update an
existing key in place, or append a new one. -/
def jsObjSet (fields : List (String × TableMeta)) (key : String)
    (v : TableMeta) : List (String × TableMeta) :=
  match fields with
  | [] => [(key, v)]
  | (k, w) :: rest =>
      if k = key then (k, v) :: rest else (k, w) :: jsObjSet rest key v

/-- AIAgent.addTableMetadata. -/
def addTableMetadata (s : AgentState) (tableName : String) (m : TableMeta) :
    AgentState :=
  { s with tableMetadata := jsObjSet s.tableMetadata tableName m }

/-- An operation on the agent object: the two catalog mutators and a
pipeline run. -/
inductive AgentOp where
  | addExample (query description : String)
  | addTable (tableName : String) (metadata : TableMeta)
  | process (userInput : String) (t0 t1 : Int)

/-- Is the operation one of the explicit catalog mutators? -/
def isAddOp : AgentOp → Bool
  | .process _ _ _ => false
  | _ => true

/-- One agent operation: the resulting catalogs plus the pipeline result of
a run.  processQuery reads the catalogs but contains no assignment to them,
so the process case leaves the state component untouched. -/
def agentStep (s : AgentState) (op : AgentOp) (o : Oracle) (p : Parse) :
    AgentState × Option PipelineResult :=
  match op with
  | .addExample q d => (addExampleQuery s q d, none)
  | .addTable n m => (addTableMetadata s n m, none)
  | .process u t0 t1 => (s, some (processQuery s o p u t0 t1))

/-- refineUserInput catches its model call: it never throws to its caller. -/
lemma refineUserInput_ok (o : Oracle) (u : String) :
    ∃ r, refineUserInput o u = Except.ok r := by
  cases h : o (refinePrompt u) <;> simp [refineUserInput, h]

/-- selectBestQuery catches everything in its try block: it never throws. -/
lemma selectBestQuery_ok (qs : List ExampleQuery) (o : Oracle) (p : Parse)
    (u : String) : ∃ r, selectBestQuery qs o p u = Except.ok r := by
  unfold selectBestQuery
  split
  · exact ⟨_, rfl⟩
  · split <;> exact ⟨_, rfl⟩

/-- selectTablesAndColumns catches everything in its try block. -/
lemma selectTablesAndColumns_ok (cat : List (String × TableMeta)) (o : Oracle)
    (p : Parse) (u : String) :
    ∃ r, selectTablesAndColumns cat o p u = Except.ok r := by
  unfold selectTablesAndColumns
  split
  · exact ⟨_, rfl⟩
  · split <;> exact ⟨_, rfl⟩

/-- A successfully returned generation result with success true carries the
trimmed response text as its query. -/
lemma generateRedshiftQuery_success_query {o : Oracle} {u : String}
    {sq st sc : JSVal} {g : QueryGenerationResult}
    (h : generateRedshiftQuery o u sq st sc = Except.ok g)
    (hs : g.success = true) : ∃ q, g.query = some q := by
  unfold generateRedshiftQuery at h
  rcases hb : buildTablesInfo st sc with e | ti <;> rw [hb] at h
  · cases h
  · dsimp only at h
    rcases ho : o (genPrompt u sq ti) with e | resp <;> rw [ho] at h <;>
      cases h <;> simp_all

/-- C1: in every outcome of processQuery, `finalQuery` is non-null iff the
field `success` of the result is true, which in turn holds iff all required steps
(input refinement, table selection, query generation) succeeded; and
`processingTime` is set to the elapsed time in every outcome. -/
theorem C1_finalQuery_iff_success (s : AgentState) (o : Oracle) (p : Parse)
    (u : String) (t0 t1 : Int) :
    ((processQuery s o p u t0 t1).finalQuery.isSome = true ↔
        (processQuery s o p u t0 t1).success = true)
    ∧ ((processQuery s o p u t0 t1).success = true ↔
        ((processQuery s o p u t0 t1).refinement.map RefinementResult.success
            = some true
          ∧ (processQuery s o p u t0 t1).tableSelection.map
              (fun t => truthyOpt t.success) = some true
          ∧ (processQuery s o p u t0 t1).queryGeneration.map
              QueryGenerationResult.success = some true))
    ∧ (processQuery s o p u t0 t1).processingTime = t1 - t0 := by
  obtain ⟨ref, href⟩ := refineUserInput_ok o u
  obtain ⟨qsel, hq⟩ := selectBestQuery_ok s.exampleQueries o p ref.refined
  obtain ⟨tsel, ht⟩ := selectTablesAndColumns_ok s.tableMetadata o p ref.refined
  unfold processQuery
  rw [href]
  dsimp only
  cases hrs : ref.success with
  | false => simp [jsCatch, hrs]
  | true =>
    rw [if_neg (by simp)]
    rw [hq]
    dsimp only
    rw [ht]
    dsimp only
    cases hts : truthyOpt tsel.success with
    | false => simp [jsCatch, hrs, hts]
    | true =>
      rw [if_neg (by simp)]
      cases hg : generateRedshiftQuery o ref.refined qsel.selectedQuery
          tsel.selectedTables tsel.selectedColumns with
      | error e => simp [jsCatch, hrs, hts]
      | ok gen =>
        dsimp only
        cases hgs : gen.success with
        | false => simp [jsCatch, hrs, hts, hgs]
        | true =>
          rw [if_neg (by simp)]
          obtain ⟨q, hq2⟩ := generateRedshiftQuery_success_query hg hgs
          simp [hrs, hts, hgs, hq2]

/-- C3: if the model call thrown by the refiner fails, refineUserInput
returns success false with refined equal to the original input, and the
whole pipeline run fails with error prefixed "Input refinement failed:". -/
theorem C3_refinement_failure (s : AgentState) (o : Oracle) (p : Parse)
    (u e : String) (t0 t1 : Int) (h : o (refinePrompt u) = Except.error e) :
    refineUserInput o u = Except.ok
      { original := u, refined := u, success := false, error := some e }
    ∧ (processQuery s o p u t0 t1).success = false
    ∧ (processQuery s o p u t0 t1).error
        = some ("Input refinement failed: " ++ e) := by
  have hr : refineUserInput o u = Except.ok
      { original := u, refined := u, success := false, error := some e } := by
    simp [refineUserInput, h]
  refine ⟨hr, ?_, ?_⟩ <;>
    · unfold processQuery
      rw [hr]
      dsimp only
      simp [jsCatch, jsTemplateOpt]

/-- Witness for C3 at a concrete always-throwing oracle. -/
theorem C3_refinement_failure_witness :
    (processQuery ⟨[], []⟩ (fun _ => Except.error "boom")
      (fun _ => Except.error "x") "hi" 0 5).error
      = some ("Input refinement failed: " ++ "boom") :=
  (C3_refinement_failure ⟨[], []⟩ (fun _ => Except.error "boom")
    (fun _ => Except.error "x") "hi" "boom" 0 5 rfl).2.2

/-- C4: with a non-empty table-metadata catalog and a table-selection model
response that fails to parse, the step degrades to an empty selection with
success false, and the orchestrator aborts with "Table selection failed:"
before ever recording a query-generation step. -/
theorem C4_parse_failure_aborts (qs : List ExampleQuery)
    (n : String) (m : TableMeta) (cat : List (String × TableMeta))
    (o : Oracle) (p : Parse) (u rt resp pe : String) (t0 t1 : Int)
    (h1 : o (refinePrompt u) = Except.ok rt)
    (h2 : o (tableSelectionPrompt ((n, m) :: cat) rt) = Except.ok resp)
    (h3 : p resp = Except.error pe) :
    selectTablesAndColumns ((n, m) :: cat) o p rt = Except.ok
      { selectedTables := JSVal.arr [], selectedColumns := JSVal.obj []
        reasoning := JSVal.str ("Error selecting tables and columns: " ++ pe)
        confidence := some (JSVal.num 0), success := some false
        error := some pe }
    ∧ (processQuery ⟨qs, (n, m) :: cat⟩ o p u t0 t1).success = false
    ∧ (processQuery ⟨qs, (n, m) :: cat⟩ o p u t0 t1).error
        = some ("Table selection failed: " ++ pe)
    ∧ (processQuery ⟨qs, (n, m) :: cat⟩ o p u t0 t1).queryGeneration = none := by
  have hr : refineUserInput o u = Except.ok
      { original := u, refined := rt, success := true, error := none } := by
    simp [refineUserInput, h1]
  have hstc : selectTablesAndColumns ((n, m) :: cat) o p rt = Except.ok
      { selectedTables := JSVal.arr [], selectedColumns := JSVal.obj []
        reasoning := JSVal.str ("Error selecting tables and columns: " ++ pe)
        confidence := some (JSVal.num 0), success := some false
        error := some pe } := by
    simp [selectTablesAndColumns, h2, h3, bind, Except.bind]
  obtain ⟨qsel, hq⟩ := selectBestQuery_ok qs o p rt
  refine ⟨hstc, ?_, ?_, ?_⟩ <;>
    · unfold processQuery
      rw [hr]
      dsimp only
      rw [if_neg (by simp)]
      rw [hq]
      dsimp only
      rw [hstc]
      dsimp only
      simp [truthyOpt, jsCatch, jsTemplateOpt]

/-- Witness for C4 at a concrete oracle whose responses never parse. -/
theorem C4_parse_failure_aborts_witness :
    (processQuery ⟨[], [("orders", { columns := [] })]⟩
      (fun _ => Except.ok "notjson") (fun _ => Except.error "Unexpected token")
      "u" 0 9).error
      = some ("Table selection failed: " ++ "Unexpected token") :=
  (C4_parse_failure_aborts [] "orders" { columns := [] } []
    (fun _ => Except.ok "notjson") (fun _ => Except.error "Unexpected token")
    "u" "notjson" "notjson" "Unexpected token" 0 9 rfl rfl rfl).2.2.1

/-- C10: with an empty table-metadata catalog and a successful refinement,
the run always fails: the short-circuit table-selection result carries no
success field, the Query Generator is never invoked, and the result error is
exactly "Table selection failed: undefined". -/
theorem C10_empty_catalog_fails (qs : List ExampleQuery) (o : Oracle)
    (p : Parse) (u rt : String) (t0 t1 : Int)
    (h1 : o (refinePrompt u) = Except.ok rt) :
    (processQuery ⟨qs, []⟩ o p u t0 t1).success = false
    ∧ (processQuery ⟨qs, []⟩ o p u t0 t1).error
        = some "Table selection failed: undefined"
    ∧ (processQuery ⟨qs, []⟩ o p u t0 t1).queryGeneration = none
    ∧ (processQuery ⟨qs, []⟩ o p u t0 t1).tableSelection
        = some { selectedTables := JSVal.arr []
                 selectedColumns := JSVal.obj []
                 reasoning := JSVal.str "No table metadata available"
                 confidence := none, success := none, error := none } := by
  have hr : refineUserInput o u = Except.ok
      { original := u, refined := rt, success := true, error := none } := by
    simp [refineUserInput, h1]
  have hstc : selectTablesAndColumns ([] : List (String × TableMeta)) o p rt
      = Except.ok
        { selectedTables := JSVal.arr [], selectedColumns := JSVal.obj []
          reasoning := JSVal.str "No table metadata available" } := by
    simp [selectTablesAndColumns]
  obtain ⟨qsel, hq⟩ := selectBestQuery_ok qs o p rt
  refine ⟨?_, ?_, ?_, ?_⟩ <;>
    · unfold processQuery
      rw [hr]
      dsimp only
      rw [if_neg (by simp)]
      rw [hq]
      dsimp only
      rw [hstc]
      dsimp only
      simp [truthyOpt, jsCatch, jsTemplateOpt]
      try decide

/-- Witness for C10 at a concrete oracle. -/
theorem C10_empty_catalog_fails_witness :
    (processQuery ⟨[], []⟩ (fun _ => Except.ok "rt")
      (fun _ => Except.error "x") "u" 0 7).error
      = some "Table selection failed: undefined" :=
  (C10_empty_catalog_fails [] (fun _ => Except.ok "rt")
    (fun _ => Except.error "x") "u" "rt" 0 7 rfl).2.1

/-- C6: the isValid field of validateQuery is the conjunction of exactly the four
checks (SELECT token case-insensitively, FROM token case-insensitively,
trimmed text ends with a semicolon or none occurs at all, trimmed text
non-empty); the two cited concrete evaluations hold. -/
theorem C6_validateQuery_isValid (q : String) :
    ((validateQuery q).isValid = true ↔
      (hasSelectCheck q = true ∧ hasFromCheck q = true
        ∧ ((jsTrim q).toList.getLast? = some ';' ∨ q.toList.contains ';' = false)
        ∧ 0 < (jsTrim q).toList.length))
    ∧ ((validateQuery "SELECT a FROM b;").isValid = true
        ∧ (validateQuery "SELECT a FROM b;").suggestions = [])
    ∧ ((validateQuery "").checks.notEmpty = false
        ∧ (validateQuery "").isValid = false) := by
  refine ⟨?_, by decide, by decide⟩
  simp [validateQuery, properSemicolon, notEmptyCheck, Bool.or_eq_true,
    Bool.and_eq_true, beq_iff_eq, Bool.not_eq_true']
  tauto

/-- C7: generateSuggestions emits exactly one message per failing check
among hasSelect, hasFrom and notEmpty, and the trailing-semicolon check
contributes no message at all. -/
theorem C7_generateSuggestions_messages (c : ValidationChecks) (b : Bool) :
    (("Query should include a SELECT statement" ∈ generateSuggestions c)
        ↔ c.hasSelect = false)
    ∧ (("Query should include a FROM clause" ∈ generateSuggestions c)
        ↔ c.hasFrom = false)
    ∧ (("Query cannot be empty" ∈ generateSuggestions c)
        ↔ c.notEmpty = false)
    ∧ ((generateSuggestions c).length
        = (if c.hasSelect then 0 else 1) + (if c.hasFrom then 0 else 1)
          + (if c.notEmpty then 0 else 1))
    ∧ generateSuggestions { c with properSyntax := b } = generateSuggestions c := by
  obtain ⟨h1, h2, h3, h4⟩ := c
  cases h1 <;> cases h2 <;> cases h3 <;> cases h4 <;> cases b <;> decide

/-- C8: with a non-empty catalog and a model response parsing to a JSON
object, selectBestQuery echoes that object, with selectedQuery, confidence and
reasoning fields unmodified, with success true. -/
theorem C8_echo_json_fields (e0 : ExampleQuery) (qs : List ExampleQuery)
    (o : Oracle) (p : Parse) (u resp : String) (fs : List (String × JSVal))
    (h1 : o (querySelectionPrompt (e0 :: qs) u) = Except.ok resp)
    (h2 : p resp = Except.ok (JSVal.obj fs)) :
    selectBestQuery (e0 :: qs) o p u = Except.ok
      { selectedQuery := (fs.lookup "selectedQuery").getD JSVal.undefined
        selectedQueryIndex := some ((fs.lookup "selectedQueryIndex").getD JSVal.undefined)
        confidence := (fs.lookup "confidence").getD JSVal.undefined
        reasoning := (fs.lookup "reasoning").getD JSVal.undefined
        success := some true, error := none } := by
  simp [selectBestQuery, h1, h2, bind, Except.bind, jsIndex, pure, Except.pure]

/-- Witness for C8 at a concrete one-field JSON object. -/
theorem C8_echo_json_fields_witness :
    selectBestQuery [{ query := "q", description := "d" }]
      (fun _ => Except.ok "resp")
      (fun _ => Except.ok (JSVal.obj [("selectedQuery", JSVal.str "SELECT 1")]))
      "u"
      = Except.ok
        { selectedQuery := JSVal.str "SELECT 1"
          selectedQueryIndex := some JSVal.undefined
          confidence := JSVal.undefined
          reasoning := JSVal.undefined
          success := some true, error := none } :=
  C8_echo_json_fields { query := "q", description := "d" } []
    (fun _ => Except.ok "resp")
    (fun _ => Except.ok (JSVal.obj [("selectedQuery", JSVal.str "SELECT 1")]))
    "u" "resp" [("selectedQuery", JSVal.str "SELECT 1")] rfl rfl

/-- C2 counterexample: the empty-catalog short-circuit of selectBestQuery
returns an object with NO success property at all (success is absent, not a
boolean), so the claim fails as stated. -/
theorem C2_counterexample :
    Except.map QuerySelectionResult.success
      (selectBestQuery [] (fun _ => Except.error "x")
        (fun _ => Except.error "x") "q")
      = Except.ok none := rfl

/-- C2 amended: every step result produced on a path that reaches the model
call carries a boolean success and, when it is false, an error string; the
two empty-catalog short-circuits are the exception, omitting success. -/
theorem C2_stepresult_success_error (o : Oracle) (p : Parse) (u : String) :
    (∀ r, refineUserInput o u = Except.ok r →
      (r.success = true ∨ (r.success = false ∧ r.error.isSome = true)))
    ∧ (∀ (e0 : ExampleQuery) qs r,
        selectBestQuery (e0 :: qs) o p u = Except.ok r →
        (r.success = some true
          ∨ (r.success = some false ∧ r.error.isSome = true)))
    ∧ (∀ (n : String) (m : TableMeta) cat r,
        selectTablesAndColumns ((n, m) :: cat) o p u = Except.ok r →
        (r.success = some true
          ∨ (r.success = some false ∧ r.error.isSome = true)))
    ∧ (∀ (up : String) (sq st sc : JSVal) r,
        generateRedshiftQuery o up sq st sc = Except.ok r →
        (r.success = true ∨ (r.success = false ∧ r.error.isSome = true)))
    ∧ (∀ r, selectBestQuery [] o p u = Except.ok r → r.success = none)
    ∧ (∀ r, selectTablesAndColumns [] o p u = Except.ok r →
        r.success = none) := by
  refine ⟨?_, ?_, ?_, ?_, ?_, ?_⟩
  · intro r h
    unfold refineUserInput at h
    rcases ho : o (refinePrompt u) with e | resp <;> rw [ho] at h <;>
      injection h with h <;> subst h <;> simp
  · intro e0 qs r h
    unfold selectBestQuery at h
    rw [if_neg (by simp)] at h
    split at h <;> injection h with h <;> subst h <;> simp
  · intro n m cat r h
    unfold selectTablesAndColumns at h
    rw [if_neg (by simp)] at h
    split at h <;> injection h with h <;> subst h <;> simp
  · intro up sq st sc r h
    unfold generateRedshiftQuery at h
    rcases hb : buildTablesInfo st sc with e | ti <;> rw [hb] at h
    · cases h
    · dsimp only at h
      split at h <;> injection h with h <;> subst h <;> simp
  · intro r h
    unfold selectBestQuery at h
    rw [if_pos (by simp)] at h
    injection h with h
    subst h
    rfl
  · intro r h
    unfold selectTablesAndColumns at h
    rw [if_pos (by simp)] at h
    injection h with h
    subst h
    rfl

/-- Witness for C2 amended: a failed model call yields success false with an
error string. -/
theorem C2_stepresult_success_error_witness :
    ({ original := "u", refined := "u", success := false
       error := some "E" } : RefinementResult).success = true
    ∨ (({ original := "u", refined := "u", success := false
          error := some "E" } : RefinementResult).success = false
        ∧ (({ original := "u", refined := "u", success := false
              error := some "E" } : RefinementResult).error).isSome = true) :=
  (C2_stepresult_success_error (fun _ => Except.error "E")
    (fun _ => Except.error "E") "u").1
    { original := "u", refined := "u", success := false, error := some "E" }
    rfl

/-- A value found by assoc-list lookup is among the stored values. -/
lemma lookup_mem_snd (fs : List (String × JSVal)) (k : String) (v : JSVal)
    (h : fs.lookup k = some v) : v ∈ fs.map Prod.snd := by
  induction fs with
  | nil => cases h
  | cons kv rest ih =>
    rcases kv with ⟨a, b⟩
    rw [List.lookup] at h
    by_cases hab : (k == a) = true
    · rw [hab] at h
      injection h with h
      subst h
      simp
    · rw [Bool.not_eq_true] at hab
      rw [hab] at h
      simpa using Or.inr (ih h)

/-- When every value stored in the selected-columns object is an array, the
per-table prompt lines build without a thrown TypeError. -/
lemma tablesInfoLines_ok (ts : List JSVal) (fs : List (String × JSVal))
    (hfs : ∀ v ∈ fs.map Prod.snd, ∃ xs, v = JSVal.arr xs) :
    ∃ ls, tablesInfoLines ts (JSVal.obj fs) = Except.ok ls := by
  induction ts with
  | nil => exact ⟨[], rfl⟩
  | cons t ts ih =>
    obtain ⟨ls, hls⟩ := ih
    unfold tablesInfoLines
    rcases hl : fs.lookup (jsValToString t) with _ | v
    · exact ⟨("Table: " ++ jsValToString t ++ "\nColumns: "
          ++ jsListJoin ", " []) :: ls,
        by simp [jsIndex, hl, bind, Except.bind, truthyVal,
          jsJoinCall, hls, pure, Except.pure]⟩
    · obtain ⟨xs, hv⟩ := hfs v (lookup_mem_snd fs (jsValToString t) v hl)
      subst hv
      exact ⟨("Table: " ++ jsValToString t ++ "\nColumns: "
          ++ jsListJoin ", " xs) :: ls,
        by simp [jsIndex, hl, bind, Except.bind, truthyVal,
          jsJoinCall, hls, pure, Except.pure]⟩

/-- C5 counterexample: generateRedshiftQuery does NOT always catch its own
errors: called with an undefined selectedTables (which a success-flagged
table selection can produce, since the parsed JSON is not validated), the
`.map` in prompt construction throws a TypeError to the caller. -/
theorem C5_counterexample :
    generateRedshiftQuery (fun _ => Except.ok "SELECT 1") "u" JSVal.jsNull
      JSVal.undefined JSVal.undefined
      = Except.error
          "TypeError: Cannot read properties of undefined (reading \x27map\x27)" :=
  rfl

/-- C5 amended: refineUserInput, selectBestQuery and selectTablesAndColumns
never throw to their caller for any model behaviour; generateRedshiftQuery
catches all model-call errors and throws only from prompt construction,
never when selectedTables is an array and every stored column list is an
array; the orchestrator (processQuery, a total function into
PipelineResult) catches everything else. -/
theorem C5_steps_never_throw (o : Oracle) (p : Parse) (u up : String)
    (qs : List ExampleQuery) (cat : List (String × TableMeta)) (sq : JSVal)
    (ts : List JSVal) (fs : List (String × JSVal))
    (hfs : ∀ v ∈ fs.map Prod.snd, ∃ xs, v = JSVal.arr xs) :
    exceptOk (refineUserInput o u) = true
    ∧ exceptOk (selectBestQuery qs o p u) = true
    ∧ exceptOk (selectTablesAndColumns cat o p u) = true
    ∧ exceptOk (generateRedshiftQuery o up sq (JSVal.arr ts)
        (JSVal.obj fs)) = true := by
  obtain ⟨r1, h1⟩ := refineUserInput_ok o u
  obtain ⟨r2, h2⟩ := selectBestQuery_ok qs o p u
  obtain ⟨r3, h3⟩ := selectTablesAndColumns_ok cat o p u
  obtain ⟨ls, hls⟩ := tablesInfoLines_ok ts fs hfs
  have hb : buildTablesInfo (JSVal.arr ts) (JSVal.obj fs)
      = Except.ok (String.intercalate "\n\n" ls) := by
    unfold buildTablesInfo
    simp [hls, bind, Except.bind, pure, Except.pure]
  refine ⟨by rw [h1]; rfl, by rw [h2]; rfl, by rw [h3]; rfl, ?_⟩
  unfold generateRedshiftQuery
  rw [hb]
  dsimp only
  rcases ho : o (genPrompt up sq (String.intercalate "\n\n" ls)) with e | resp <;>
    rfl

/-- Witness for C5 amended at a one-table selection with array columns. -/
theorem C5_steps_never_throw_witness :
    exceptOk (generateRedshiftQuery (fun _ => Except.ok "resp") "up"
      JSVal.jsNull (JSVal.arr [JSVal.str "t"])
      (JSVal.obj [("t", JSVal.arr [JSVal.str "c1"])])) = true :=
  (C5_steps_never_throw (fun _ => Except.ok "resp")
    (fun _ => Except.error "x") "u" "up" [] [] JSVal.jsNull
    [JSVal.str "t"] [("t", JSVal.arr [JSVal.str "c1"])]
    (by intro v hv; simp at hv; exact ⟨_, hv⟩)).2.2.2

/-- C9: a pipeline run leaves both catalogs untouched; only the two explicit
add operations change them (push for example queries, keyed set for table
metadata). -/
theorem C9_catalogs_frame (s : AgentState) (o : Oracle) (p : Parse)
    (u q d n : String) (m : TableMeta) (t0 t1 : Int) :
    (agentStep s (AgentOp.process u t0 t1) o p).1 = s
    ∧ (agentStep s (AgentOp.addExample q d) o p).1
        = { s with exampleQueries :=
              s.exampleQueries ++ [{ query := q, description := d }] }
    ∧ (agentStep s (AgentOp.addTable n m) o p).1
        = { s with tableMetadata := jsObjSet s.tableMetadata n m }
    ∧ (∀ op, isAddOp op = false → (agentStep s op o p).1 = s) := by
  refine ⟨rfl, rfl, rfl, ?_⟩
  intro op hop
  cases op with
  | addExample q d => simp [isAddOp] at hop
  | addTable n m => simp [isAddOp] at hop
  | process u t0 t1 => rfl

/-- Witness for C9 at a concrete run. -/
theorem C9_catalogs_frame_witness :
    (agentStep ⟨[], []⟩ (AgentOp.process "u" 0 1)
      (fun _ => Except.error "x") (fun _ => Except.error "x")).1
      = (⟨[], []⟩ : AgentState) :=
  (C9_catalogs_frame ⟨[], []⟩ (fun _ => Except.error "x")
    (fun _ => Except.error "x") "u" "q" "d" "n" { columns := [] } 0 1).2.2.2
    (AgentOp.process "u" 0 1) rfl
